import Mathlib

/-!
# Verification of the Pi-SIM800L modem engine against its specification

Shallow embedding of the parts of `sim800l_hat.py` and `Workspace/recv_sms.py`
that the specification's claims are about: the UART command dispatcher, the
network-registration polling loop, the SMS-notification handling, the
battery/signal telemetry samplers, the SMS send path with its lock discipline,
and the SIM-PIN endpoint.

Conventions of the embedding:
* Python strings are Lean `String`s; the Python idioms `needle in hay`,
  `s.strip()`, `s.split(c)`, `s.startswith(p)` are modelled by the helpers
  below, operating on `String.data` (`List Char`).
* The specific `re.search` patterns used by the code (literal prefix, `\s*`,
  comma-separated `(\d+)` groups, and the `+CMTI` pattern) are implemented
  directly; for these patterns greedy matching without backtracking is exact
  because the character classes at each boundary are disjoint.
* Real time is discretised into ticks of 10 ms (the polling interval of
  `uart_read`), so `trailing_delay = 0.05 s` is 5 ticks and a timeout of
  `t` seconds is `100 * t` ticks.
* Voltages are exact rationals (`ℚ`); the Python floats stay far from the
  decision thresholds in every claim considered, so the verdicts agree.
* `threading.Lock` is non-reentrant: an `acquire` by the thread that already
  holds the lock blocks forever when no other thread can release it.
-/

/-- Python's `\s` character class (whitespace as used by `str.strip()` and
`\s*` in the regexes): space, tab, newline, carriage return, vertical tab,
form feed. -/
def pySpace (c : Char) : Bool :=
  c = ' ' || c = '\t' || c = '\n' || c = '\r' || c = '\x0b' || c = '\x0c'

/-- `hasSub needle hay`: does `needle` occur as a contiguous sublist of
`hay`?  Models Python's `needle in hay` on strings. -/
def hasSub (needle : List Char) : List Char → Bool
  | [] => needle.isEmpty
  | c :: t => needle.isPrefixOf (c :: t) || hasSub needle t

/-- Python's `needle in hay` for strings. -/
def strContains (hay needle : String) : Bool :=
  hasSub needle.data hay.data

/-- Python's `s.strip(chars)`: remove the given characters from both ends. -/
def pyStripChars (cs : List Char) (s : String) : String :=
  String.mk (((s.data.dropWhile (cs.contains ·)).reverse.dropWhile (cs.contains ·)).reverse)

/-- Python's `s.strip()` (default whitespace). -/
def pyStrip (s : String) : String :=
  String.mk (((s.data.dropWhile pySpace).reverse.dropWhile pySpace).reverse)

/-- Worker for `splitOnChar`: `acc` holds the current piece reversed. -/
def splitCharsAux (sep : Char) : List Char → List Char → List String
  | [], acc => [String.mk acc.reverse]
  | c :: t, acc =>
    if c = sep then String.mk acc.reverse :: splitCharsAux sep t []
    else splitCharsAux sep t (c :: acc)

/-- Python's `s.split('\n')` (single-character separator, keeps empty
parts). -/
def splitOnChar (sep : Char) (s : String) : List String :=
  splitCharsAux sep s.data []

/-- Numeric value of a digit string, as Python's `int` on a `\d+` match
(`"007"` evaluates to `7`). -/
def digitsToNat (s : String) : Nat :=
  s.data.foldl (fun n c => 10 * n + (c.toNat - '0'.toNat)) 0

/-- Python's `s.startswith(pre)`. -/
def pyStartsWith (s pre : String) : Bool :=
  pre.data.isPrefixOf s.data

/-- Python's `l[-n:]`: the last `n` elements (all of them when `n` exceeds
the length). -/
def pyLastN (n : Nat) (l : List α) : List α :=
  l.drop (l.length - n)

/-- Match `(\d+)` at the head: the maximal nonempty digit run and the rest.
Maximal munch is exact here because in every pattern a digit group is
followed by `,` or by the end of the pattern. -/
def matchDigits (l : List Char) : Option (List Char × List Char) :=
  let d := l.takeWhile Char.isDigit
  if d.isEmpty then none else some (d, l.drop d.length)

/-- Match `(\d+)(,(\d+))*` with exactly `k` groups at the head of `l`,
returning the group texts. -/
def matchNumGroupsAt : Nat → List Char → Option (List (List Char))
  | 0, _ => some []
  | 1, l => (matchDigits l).map (fun p => [p.1])
  | n + 2, l =>
    match matchDigits l with
    | none => none
    | some (d, rest) =>
      match rest with
      | ',' :: rest2 => (matchNumGroupsAt (n + 1) rest2).map (d :: ·)
      | _ => none

/-- Match `lit` then (optionally) `\s*` then `k` comma-separated `(\d+)`
groups, anchored at the head of `l`. -/
def matchPatAt (lit : List Char) (ws : Bool) (k : Nat) (l : List Char) :
    Option (List (List Char)) :=
  if lit.isPrefixOf l then
    let r := l.drop lit.length
    matchNumGroupsAt k (if ws then r.dropWhile pySpace else r)
  else none

/-- `re.search` driver: try the anchored matcher at every position, leftmost
match wins. -/
def reSearch (f : List Char → Option α) : List Char → Option α
  | [] => f []
  | c :: t =>
    match f (c :: t) with
    | some a => some a
    | none => reSearch f t

/-- `re.search` for a pattern `lit\s*(\d+)(,(\d+))*` with `k` groups (the
shape of every numeric pattern in the code), returning the group texts. -/
def searchPat (lit : String) (ws : Bool) (k : Nat) (s : String) :
    Option (List String) :=
  (reSearch (matchPatAt lit.data ws k) s.data).map (·.map String.mk)

namespace Hat

/-! ## `sim800l_hat.py` -/

/-- Result of `get_signal_strength` (the dict it returns). -/
structure SignalInfo where
  rssi : Nat
  ber : Nat
  signal_dbm : Option Int
  signal_quality : String
  raw_response : String
  deriving Repr, DecidableEq

/-- `get_signal_strength` of `sim800l_hat.py`, as a function of the raw
`AT+CSQ` response text: `re.search(r'\+CSQ:\s*(\d+),(\d+)', resp)`, then the
rssi classification exactly as in the source. -/
def get_signal_strength (resp : String) : Option SignalInfo :=
  match searchPat "+CSQ:" true 2 resp with
  | some [g1, g2] =>
    let rssi := digitsToNat g1
    let ber := digitsToNat g2
    if rssi = 99 then
      some ⟨rssi, ber, none, "Unknown", pyStrip resp⟩
    else if rssi = 0 then
      some ⟨rssi, ber, none, "No Signal", pyStrip resp⟩
    else
      let signal_dbm : Int := -113 + 2 * (rssi : Int)
      let signal_quality :=
        if rssi ≥ 20 then "Excellent"
        else if rssi ≥ 15 then "Good"
        else if rssi ≥ 10 then "Fair"
        else if rssi ≥ 5 then "Poor"
        else "Very Poor"
      some ⟨rssi, ber, some signal_dbm, signal_quality, pyStrip resp⟩
  | _ => none

/-- One entry of the global `battery_voltage_history` list (the dict
`{'timestamp': ..., 'voltage': ..., 'charge_level': ...}`); ISO timestamps
are modelled as a monotone counter. -/
structure BatterySample where
  timestamp : Nat
  voltage : ℚ
  charge_level : Nat
  deriving Repr, DecidableEq

/-- The `voltage_changes`/`avg_change` computation of
`determine_battery_charging_status`: successive voltage deltas
(`recent[i] - recent[i-1]`), averaged. -/
def succDeltaAvg (recent_history : List BatterySample) : ℚ :=
  (List.zipWith (fun prev cur => cur.voltage - prev.voltage)
      recent_history recent_history.tail).sum /
    ((List.zipWith (fun prev cur => cur.voltage - prev.voltage)
      recent_history recent_history.tail).length : ℚ)

/-- `determine_battery_charging_status` of `sim800l_hat.py`, as a function of
the global `battery_voltage_history`: mean of the successive voltage deltas
over the last (at most) 5 samples, compared against the thresholds
`charging_threshold = 0.01` and `discharging_threshold = -0.005` (written as
the exact fractions `1/100` and `-(1/200)`). -/
def determine_battery_charging_status (battery_voltage_history : List BatterySample) :
    String :=
  if battery_voltage_history.length < 2 then "insufficient_data"
  else if (pyLastN 5 battery_voltage_history).length < 2 then "insufficient_data"
  else if succDeltaAvg (pyLastN 5 battery_voltage_history) > 1/100 then "charging"
  else if succDeltaAvg (pyLastN 5 battery_voltage_history) < -(1/200) then "discharging"
  else "stable"

/-- The module-level mutable state that `get_battery_voltage` touches. -/
structure BattState where
  last_battery_voltage : ℚ
  battery_status : String
  battery_voltage_history : List BatterySample
  deriving Repr, DecidableEq

/-- The dict returned by `get_battery_voltage` on success. -/
structure BattResult where
  voltage : ℚ
  voltage_mv : Nat
  charge_level : Nat
  status : String
  charging_status : String
  timestamp : Nat
  raw_response : String
  deriving Repr, DecidableEq

/-- The ordered `patterns` list of `get_battery_voltage`: literal prefix,
whether the pattern has `\s*`, and the number of `(\d+)` groups. -/
def cbcPatterns : List (String × Bool × Nat) :=
  [("+CBC:", true, 3), ("CBC:", true, 3), ("+CBC:", true, 2), ("CBC:", true, 2),
   ("", false, 3), ("", false, 2)]

/-- The pattern loop of `get_battery_voltage`: try each pattern with
`re.search`, first match wins. -/
def findFirstPat : List (String × Bool × Nat) → String → Option (List String)
  | [], _ => none
  | (lit, ws, k) :: rest, s =>
    match searchPat lit ws k s with
    | some gs => some gs
    | none => findFirstPat rest s

/-- The history-trimming step of `get_battery_voltage`
(`if len(battery_voltage_history) > 20: battery_voltage_history =
battery_voltage_history[-20:]`). -/
def evict20 (l : List BatterySample) : List BatterySample :=
  if l.length > 20 then pyLastN 20 l else l

/-- `get_battery_voltage` of `sim800l_hat.py` as a state transformer.
`resp = none` models `send_at` raising (the `except` branch returns `None`
without touching the globals); `now` is the timestamp of this call.  The
diagnostic `AT+CPAS` / `AT` probes of the no-match branch only print, so they
are not modelled.  On a match with at least three groups the sample
`{timestamp, voltage, charge_level}` is appended, the history trimmed, and
the charging status recomputed from the trimmed history, exactly in the
source's order. -/
def get_battery_voltage (now : Nat) (resp : Option String) (st : BattState) :
    Option BattResult × BattState :=
  match resp with
  | none => (none, st)
  | some r =>
    match findFirstPat cbcPatterns r with
    | some (_g0 :: g1 :: g2 :: _) =>
      (some ⟨(digitsToNat g2 : ℚ) / 1000, digitsToNat g2, digitsToNat g1, "measured",
        determine_battery_charging_status (evict20 (st.battery_voltage_history ++
          [⟨now, (digitsToNat g2 : ℚ) / 1000, digitsToNat g1⟩])), now, pyStrip r⟩,
       ⟨(digitsToNat g2 : ℚ) / 1000, "measured",
        evict20 (st.battery_voltage_history ++
          [⟨now, (digitsToNat g2 : ℚ) / 1000, digitsToNat g1⟩])⟩)
    | some _ => (none, st)
    | none => (none, st)

/-- The trimming step keeps exactly the most recent 20 entries: it is a
`drop` of the oldest ones. -/
theorem evict20_eq_drop (l : List BatterySample) :
    evict20 l = l.drop (l.length - 20) := by
  unfold evict20
  by_cases hgt : l.length > 20
  · rw [if_pos hgt]
    rfl
  · rw [if_neg hgt, show l.length - 20 = 0 by omega, List.drop_zero]

/-- Python's `str.isdigit()` restricted to ASCII strings (modem traffic and
PIN fields are ASCII): nonempty and all characters decimal digits. -/
def pyIsDigit (s : String) : Bool :=
  !s.isEmpty && s.data.all Char.isDigit

/-- Outcome of one request to the `/api/sim/set_pin` endpoint: HTTP status
code, the modem commands issued, and the value of the global `SIM_PIN`
afterwards. -/
structure PinOutcome where
  statusCode : Nat
  sent : List String
  simPin : String
  deriving Repr, DecidableEq

/-- `set_sim_pin` of `sim800l_hat.py`.  `json = none` models a request body
that is not JSON (`data` falsy, 400); `some none` a body without a `pin`
field; `some (some p)` supplies `str(new_pin) = p` (an empty `p` stands for
the falsy values caught by `if not new_pin`).  `modemResp` is the `send_at`
response, `none` if it raised (the `except` branch answers 500).  `simPin`
is the stored `SIM_PIN` before the call. -/
def set_sim_pin (json : Option (Option String)) (modemResp : Option String)
    (simPin : String) : PinOutcome :=
  match json with
  | none => ⟨400, [], simPin⟩
  | some none => ⟨400, [], simPin⟩
  | some (some p) =>
    if p = "" then ⟨400, [], simPin⟩
    else if pyIsDigit p = false ∨ p.length ≠ 4 then ⟨400, [], simPin⟩
    else
      match modemResp with
      | none => ⟨500, ["AT+CPIN=" ++ p], simPin⟩
      | some resp =>
        if strContains resp "OK" then ⟨200, ["AT+CPIN=" ++ p], p⟩
        else ⟨400, ["AT+CPIN=" ++ p], simPin⟩

/-- The lock-relevant trace of a single-threaded execution: `threading.Lock`
acquisitions and releases (`with uart_lock:` blocks), ending in a return
value. -/
inductive LockProg where
  | ret (b : Bool)
  | acq (k : LockProg)
  | rel (k : LockProg)

/-- Outcome of running a lock program in one thread. -/
inductive ExecOutcome where
  | returns (b : Bool)
  | blocked
  deriving Repr, DecidableEq

/-- Single-threaded semantics of the non-reentrant `threading.Lock`:
acquiring a free lock takes it, acquiring a lock this thread already holds
blocks forever (no other thread exists to release it). -/
def runLockProg : LockProg → Bool → ExecOutcome
  | .ret b, _ => .returns b
  | .acq k, false => runLockProg k true
  | .acq _, true => .blocked
  | .rel k, _ => runLockProg k false

/-- Lock trace of `send_at` (`sim800l_hat.py`): `with uart_lock:` around
flush/send/read, then the continuation gets the response. -/
def send_at_prog (resp : String) (k : String → LockProg) : LockProg :=
  .acq (.rel (k resp))

/-- Lock trace of `send_sms` (`sim800l_hat.py`).  `env n` is the response
text the modem would supply to the n-th exchange.  The body takes
`uart_lock` itself and then calls `send_at` (which takes it again) for
`AT+CMGF=1` and `AT+CMGS=...`; the message body/`Ctrl+Z` exchange uses
`uart_send`/`uart_read` directly. -/
def send_sms_prog (env : Nat → String) (phone_number message : String) : LockProg :=
  if phone_number = "" ∨ message = "" then .ret false
  else
    .acq (send_at_prog (env 0) fun r1 =>
      if strContains r1 "OK" = false then .rel (.ret false)
      else send_at_prog (env 1) fun r2 =>
        if strContains r2 ">" = false then .rel (.ret false)
        else if strContains (env 2) "OK" then .rel (.ret true)
        else .rel (.ret false))

end Hat

namespace Recv

/-! ## `Workspace/recv_sms.py` -/

/-- The response terminators checked by `uart_read` of `recv_sms.py`. -/
def uartTerminators : List String :=
  ["\nOK\r\n", "\nERROR\r\n", "\n> "]

/-- `any(terminator in response for terminator in [...])`. -/
def hasTerminator (response : String) : Bool :=
  uartTerminators.any fun t => strContains response t

/-- The polling loop of `uart_read(timeout)` of `recv_sms.py`, in 10 ms
ticks (one tick per `time.sleep(0.01)` iteration; `trailing_delay = 0.05 s`
is 5 ticks).  `chunks k` is what the k-th `bb_serial_read` call yields;
`t` is the absolute tick clock, `deadline = start + 100·timeout`,
`response` the accumulated buffer, `last` the tick of the last data receipt
(`last_data_time`, 0 before any receipt; tick clocks start at ≥ 1 as the
real clock is positive).  Returns the captured text and the finish tick.
On a terminator the code sleeps the trailing delay and drains once more; on
trailing silence after data it stops; otherwise it polls until the
deadline.  `fuel` equals `deadline - t` so the recursion mirrors the
`while time.time() < deadline` loop exactly. -/
def uartReadAux (chunks : Nat → String) (deadline : Nat) :
    Nat → Nat → Nat → String → Nat → String × Nat
  | 0, t, _, response, _ => (response, t)
  | fuel + 1, t, k, response, last =>
    if t < deadline then
      if chunks k ≠ "" then
        if hasTerminator (response ++ chunks k) then
          (response ++ chunks k ++ chunks (k + 1), t + 5)
        else
          uartReadAux chunks deadline fuel (t + 1) (k + 1) (response ++ chunks k) t
      else
        if response ≠ "" ∧ last > 0 ∧ t - last > 5 then (response, t)
        else uartReadAux chunks deadline fuel (t + 1) (k + 1) response last
    else (response, t)

/-- `uart_read(timeout)`: poll from tick `start` with a deadline of
`100 * timeoutSec` ticks. -/
def uart_read (chunks : Nat → String) (timeoutSec : Nat) (start : Nat) :
    String × Nat :=
  uartReadAux chunks (start + 100 * timeoutSec) (100 * timeoutSec) start 0 "" 0

/-- `send_at(cmd, delay, timeout)` of `recv_sms.py`: flush, send, sleep the
delay (`delayTicks`, Python seconds × 100), then `uart_read(timeout)`.
Returns the response and the absolute finish tick. -/
def send_at (chunks : Nat → String) (delayTicks timeoutSec : Nat) (start : Nat) :
    String × Nat :=
  uart_read chunks timeoutSec (start + delayTicks)

/-- The command-class timeout table of `SIM800L.send_command` (seconds),
applied when no explicit timeout is passed. -/
def commandTimeout (command : String) : Nat :=
  if pyStartsWith command "AT+COPS=" then 15
  else if pyStartsWith command "AT+CFUN=" then 8
  else if pyStartsWith command "AT+CPIN=" then 5
  else if strContains command "?" then 3
  else 2

/-- The timeout actually used by `send_command`: the explicit argument when
given, else the command-class default. -/
def selectTimeout (timeout : Option Nat) (command : String) : Nat :=
  match timeout with
  | some t => t
  | none => commandTimeout command

/-- `SIM800L.send_command(command, wait_time, expected_response, timeout)`:
select the timeout, run `send_at`, and report success iff the expected
response text occurs in the captured response (unconditionally when the
expected text is empty/falsy).  Returns
`(success, response.strip(), finish tick)`. -/
def send_command (command : String) (waitTicks : Nat) (expected : String)
    (timeout : Option Nat) (chunks : Nat → String) (start : Nat) :
    Bool × String × Nat :=
  ((if expected ≠ "" then
      strContains (send_at chunks waitTicks (selectTimeout timeout command) start).1
        expected
    else true),
   pyStrip (send_at chunks waitTicks (selectTimeout timeout command) start).1,
   (send_at chunks waitTicks (selectTimeout timeout command) start).2)

/-- The `+CREG` parsing of `check_network_registration`: require
`"+CREG:" in response`, take the first line containing `+CREG:`, strip it,
and apply `re.search(r'\+CREG:\s*(\d+),(\d+)')`; yields `(n, stat)` as
digit strings. -/
def cregParse (response : String) : Option (String × String) :=
  if strContains response "+CREG:" then
    match (splitOnChar '\n' response).find? (fun line => strContains line "+CREG:") with
    | some line =>
      if pyStrip line ≠ "" then
        match searchPat "+CREG:" true 2 (pyStrip line) with
        | some [n, status] => some (n, status)
        | _ => none
      else none
    | none => none
  else none

/-- The polling loop of `check_network_registration`
(`for attempt in range(30)`), as a function of the textual response of each
`AT+CREG?` poll.  Status `"1"`/`"5"` return success immediately; `"2"`
(searching), `"0"` (idle, with its re-enable/escalation side commands), any
other status — including `"3"` denied, which falls into the catch-all
`else` — and every parse failure just continue with the next attempt.
Returns the result and the number of polls issued. -/
def checkNetRegAux (responses : Nat → String) : Nat → Nat → Bool × Nat
  | 0, attempt => (false, attempt)
  | fuel + 1, attempt =>
    match cregParse (responses attempt) with
    | some (_, status) =>
      if status = "1" then (true, attempt + 1)
      else if status = "5" then (true, attempt + 1)
      else if status = "2" then checkNetRegAux responses fuel (attempt + 1)
      else if status = "0" then checkNetRegAux responses fuel (attempt + 1)
      else checkNetRegAux responses fuel (attempt + 1)
    | none => checkNetRegAux responses fuel (attempt + 1)

/-- `check_network_registration`, polling up to 30 attempts. -/
def check_network_registration (responses : Nat → String) : Bool × Nat :=
  checkNetRegAux responses 30 0

/-- Anchored matcher for `re.search(r'\+CMTI:\s*"[^"]*",(\d+)', message)`:
literal `+CMTI:`, optional whitespace, a quoted storage name, `",`, then the
digit group.  Greedy `[^"]*` followed by `"` is exact. -/
def matchCMTIAt (l : List Char) : Option (List Char) :=
  if "+CMTI:".data.isPrefixOf l then
    match (l.drop "+CMTI:".data.length).dropWhile pySpace with
    | '"' :: r2 =>
      match r2.dropWhile (· != '"') with
      | '"' :: ',' :: r3 =>
        let d := r3.takeWhile Char.isDigit
        if d.isEmpty then none else some d
      | _ => none
    | _ => none
  else none

/-- The slot index extracted from a `+CMTI` notification (`match.group(1)`,
kept as text exactly as the code keeps it). -/
def cmtiIndex (message : String) : Option String :=
  (reSearch matchCMTIAt message.data).map String.mk

/-- The sender/timestamp/content triple the listener displays for a read
SMS. -/
structure ListenRecord where
  sender : String
  timestamp : String
  content : String
  deriving Repr, DecidableEq

/-- The quick parse of the `AT+CMGR` response inside `listen_for_new_sms`:
scan `response.strip().split('\n')` for the first `+CMGR:` line, pull
sender (field 1) and timestamp (field 3) with `strip(' "')`, and take the
following line as content; missing pieces keep their `"Unknown"` /
`"Could not parse content"` defaults. -/
def listenParseLines : List String → Option ListenRecord
  | [] => none
  | line :: rest =>
    if strContains line "+CMGR:" then
      some ⟨(if (splitOnChar ',' line).length ≥ 2 then
              pyStripChars [' ', '"'] ((splitOnChar ',' line).getD 1 "")
            else "Unknown"),
            (if (splitOnChar ',' line).length ≥ 4 then
              pyStripChars [' ', '"'] ((splitOnChar ',' line).getD 3 "")
            else "Unknown"),
            (match rest with
             | next :: _ =>
               if pyStrip next ≠ "" then pyStrip next else "Could not parse content"
             | [] => "Could not parse content")⟩
    else listenParseLines rest

/-- The `+CMTI` branch of `listen_for_new_sms`, for one received raw chunk
`message`: extract the slot index, send `AT+CMGR=<idx>` (reading
`cmgrResp`), display a record when the response contains `+CMGR:`, and —
when `AUTO_DELETE_SMS` is set — "always try to delete the message to
prevent backlog" with `AT+CMGD=<idx>`, regardless of the read outcome.
Returns the modem commands issued (in order) and the record produced, if
any. -/
def processNotification (message cmgrResp : String) (auto_delete : Bool) :
    List String × Option ListenRecord :=
  if strContains message "+CMTI:" then
    match cmtiIndex message with
    | some idx =>
      (("AT+CMGR=" ++ idx) :: (if auto_delete then ["AT+CMGD=" ++ idx] else []),
       if strContains cmgrResp "+CMGR:" then
         listenParseLines (splitOnChar '\n' (pyStrip cmgrResp))
       else none)
    | none => ([], none)
  else ([], none)

/-- The SMS record dict built by `read_single_sms`. -/
structure SmsRecord where
  index : Nat
  status : String
  sender : String
  timestamp : String
  content : String
  deriving Repr, DecidableEq

/-- The parsing loop of `read_single_sms`: scan `response.split('\n')` for a
line whose stripped form starts with `+CMGR:`, require at least 3
comma-separated fields and a following content line; otherwise keep
scanning (the code's per-line `except` also just moves on). -/
def parseCmgrLines (index : Nat) : List String → Option SmsRecord
  | [] => none
  | line :: rest =>
    if pyStartsWith (pyStrip line) "+CMGR:" then
      if (splitOnChar ',' line).length ≥ 3 then
        match rest with
        | next :: _ =>
          some ⟨index,
            pyStripChars [' ', '"']
              ((splitOnChar ':' ((splitOnChar ',' line).getD 0 "")).getD 1 ""),
            pyStripChars [' ', '"'] ((splitOnChar ',' line).getD 1 ""),
            (if (splitOnChar ',' line).length ≥ 4 then
              pyStripChars [' ', '"'] ((splitOnChar ',' line).getD 3 "")
            else ""),
            pyStrip next⟩
        | [] => none
      else parseCmgrLines index rest
    else parseCmgrLines index rest

/-- `read_single_sms(index, auto_delete)` as a function of the
`send_command("AT+CMGR=<index>", ...)` outcome `(success, response)` and of
the records the `check_and_read_sms` fallback would list.  On a failed read
it falls back to matching the index in the listed records; the record (if
any) is returned and `AT+CMGD=<index>` is issued only when a record was
produced and `auto_delete` is set.  Returns the record and the delete
commands issued. -/
def read_single_sms (index : Nat) (success : Bool) (response : String)
    (fallbackMessages : List SmsRecord) (auto_delete : Bool) :
    Option SmsRecord × List String :=
  if success = false then
    match fallbackMessages.find? (fun m => m.index == index) with
    | some m => (some m, if auto_delete then ["AT+CMGD=" ++ toString index] else [])
    | none => (none, [])
  else
    match (if strContains response "+CMGR:" then
            parseCmgrLines index (splitOnChar '\n' response)
          else none) with
    | some m => (some m, if auto_delete then ["AT+CMGD=" ++ toString index] else [])
    | none => (none, [])

end Recv

/-- The claim "`+CSQ: 15,99` yields quality `Fair`" is false on the code:
the threshold chain classifies `rssi = 15` as `Good` (`rssi >= 15`). -/
theorem C4_counterexample :
    (Hat.get_signal_strength "+CSQ: 15,99").map Hat.SignalInfo.signal_quality =
      some "Good" ∧ ("Good" : String) ≠ "Fair" := by
  exact ⟨rfl, by decide⟩

/-- C4 (amended): for the modem response `"+CSQ: 15,99"`,
`get_signal_strength` yields `rssi = 15`, quality `"Good"` and a dBm estimate
of `-83`. -/
theorem C4_amended :
    Hat.get_signal_strength "+CSQ: 15,99" =
      some ⟨15, 99, some (-83), "Good", "+CSQ: 15,99"⟩ := by
  rfl

/-- The sum of the successive deltas of `f` along a list telescopes to the
value at the last element minus the value at the first. -/
theorem sum_succ_deltas (f : α → ℚ) :
    ∀ (l : List α) (a b : α), l.head? = some a → l.getLast? = some b →
      (List.zipWith (fun prev cur => f cur - f prev) l l.tail).sum = f b - f a
  | [], _, _, ha, _ => by simp at ha
  | [x], a, b, ha, hb => by
    simp only [List.head?_cons, Option.some.injEq] at ha
    simp only [List.getLast?_singleton, Option.some.injEq] at hb
    subst ha
    subst hb
    simp
  | x :: y :: t, a, b, ha, hb => by
    simp only [List.head?_cons, Option.some.injEq] at ha
    subst ha
    have ih := sum_succ_deltas f (y :: t) y b rfl (by
      rw [List.getLast?_cons_cons] at hb
      exact hb)
    simp only [List.tail_cons, List.zipWith_cons_cons, List.sum_cons] at ih ⊢
    rw [ih]
    ring

/-- A history of voltage samples with the given voltages (timestamps and
charge levels are irrelevant to the charging-status computation). -/
def mkHist (vs : List ℚ) : List Hat.BatterySample :=
  vs.map fun v => ⟨0, v, 0⟩

/-- C6: `determine_battery_charging_status` averages the successive voltage
deltas of the last at-most-5 samples (the average equals
`(last - first) / (count - 1)` by telescoping) and classifies `> 10 mV` as
charging, `< -5 mV` as discharging, anything else as stable, with fewer than
2 samples reported as insufficient data; the three concrete histories of the
claim are classified as charging, discharging, and insufficient data. -/
theorem C6_charging_trend :
    (∀ h : List Hat.BatterySample, h.length < 2 →
      Hat.determine_battery_charging_status h = "insufficient_data")
  ∧ (∀ (h : List Hat.BatterySample) (a b : Hat.BatterySample), 2 ≤ h.length →
      (pyLastN 5 h).head? = some a → (pyLastN 5 h).getLast? = some b →
      (((b.voltage - a.voltage) / (((pyLastN 5 h).length : ℚ) - 1) > 1/100 →
          Hat.determine_battery_charging_status h = "charging")
      ∧ ((b.voltage - a.voltage) / (((pyLastN 5 h).length : ℚ) - 1) < -(1/200) →
          Hat.determine_battery_charging_status h = "discharging")
      ∧ (¬ (b.voltage - a.voltage) / (((pyLastN 5 h).length : ℚ) - 1) > 1/100 →
         ¬ (b.voltage - a.voltage) / (((pyLastN 5 h).length : ℚ) - 1) < -(1/200) →
          Hat.determine_battery_charging_status h = "stable")))
  ∧ Hat.determine_battery_charging_status
      (mkHist [39/10, 391/100, 393/100, 79/20, 397/100]) = "charging"
  ∧ Hat.determine_battery_charging_status (mkHist [41/10, 81/20, 4]) = "discharging"
  ∧ Hat.determine_battery_charging_status (mkHist [77/20]) = "insufficient_data" := by
  have keyAvg : ∀ (h : List Hat.BatterySample) (a b : Hat.BatterySample), 2 ≤ h.length →
      (pyLastN 5 h).head? = some a → (pyLastN 5 h).getLast? = some b →
      Hat.succDeltaAvg (pyLastN 5 h) =
        (b.voltage - a.voltage) / (((pyLastN 5 h).length : ℚ) - 1) := by
    intro h a b hlen ha hb
    have hrec : (pyLastN 5 h).length = h.length - (h.length - 5) := by
      simp [pyLastN]
    have hclen :
        (List.zipWith (fun prev cur => cur.voltage - prev.voltage)
          (pyLastN 5 h) (pyLastN 5 h).tail).length = (pyLastN 5 h).length - 1 := by
      rw [List.length_zipWith, List.length_tail]
      omega
    have hsum :
        (List.zipWith (fun prev cur => cur.voltage - prev.voltage)
          (pyLastN 5 h) (pyLastN 5 h).tail).sum = b.voltage - a.voltage :=
      sum_succ_deltas (fun s => s.voltage) (pyLastN 5 h) a b ha hb
    have hcast : (((pyLastN 5 h).length - 1 : Nat) : ℚ) =
        ((pyLastN 5 h).length : ℚ) - 1 := by
      rw [Nat.cast_sub (by omega)]
      norm_num
    unfold Hat.succDeltaAvg
    rw [hsum, hclen, hcast]
  refine ⟨?_, ?_,
    by norm_num [Hat.determine_battery_charging_status, Hat.succDeltaAvg, mkHist,
      pyLastN, List.zipWith],
    by norm_num [Hat.determine_battery_charging_status, Hat.succDeltaAvg, mkHist,
      pyLastN, List.zipWith],
    by norm_num [Hat.determine_battery_charging_status, mkHist]⟩
  · intro h hlen
    unfold Hat.determine_battery_charging_status
    rw [if_pos hlen]
  · intro h a b hlen ha hb
    have hrec : (pyLastN 5 h).length = h.length - (h.length - 5) := by
      simp [pyLastN]
    have havg := keyAvg h a b hlen ha hb
    unfold Hat.determine_battery_charging_status
    rw [if_neg (by omega), if_neg (by omega), havg]
    refine ⟨fun hgt => ?_, fun hlt => ?_, fun hng hnl => ?_⟩
    · rw [if_pos hgt]
    · rw [if_neg (by linarith), if_pos hlt]
    · rw [if_neg hng, if_neg hnl]

/-- Witness for C6 at concrete inputs. -/
theorem C6_witness :
    Hat.determine_battery_charging_status (mkHist [19/5]) = "insufficient_data" ∧
    Hat.determine_battery_charging_status (mkHist [39/10, 79/20]) = "charging" := by
  constructor
  · exact C6_charging_trend.1 (mkHist [19/5]) (by decide)
  · exact (C6_charging_trend.2.1 (mkHist [39/10, 79/20]) ⟨0, 39/10, 0⟩ ⟨0, 79/20, 0⟩
      (by decide) rfl rfl).1 (by norm_num [pyLastN, mkHist])

/-- C8: after any call of `get_battery_voltage` the history holds at most 20
samples (given that it did before); a successful sample appends exactly one
entry at the end and at most evicts the oldest entries (the new history is a
drop of the old history extended by the new sample); and a chronologically
ordered history stays chronologically ordered. -/
theorem C8_history_invariant :
    ∀ (now : Nat) (resp : Option String) (st : Hat.BattState),
      (st.battery_voltage_history.length ≤ 20 →
        (Hat.get_battery_voltage now resp st).2.battery_voltage_history.length ≤ 20)
    ∧ (match (Hat.get_battery_voltage now resp st).1 with
       | none => (Hat.get_battery_voltage now resp st).2.battery_voltage_history =
           st.battery_voltage_history
       | some r => (Hat.get_battery_voltage now resp st).2.battery_voltage_history =
           (st.battery_voltage_history ++
             [Hat.BatterySample.mk now r.voltage r.charge_level]).drop
             (st.battery_voltage_history.length + 1 - 20))
    ∧ ((st.battery_voltage_history.Pairwise fun x y => x.timestamp ≤ y.timestamp) →
       (∀ x ∈ st.battery_voltage_history, x.timestamp ≤ now) →
       (Hat.get_battery_voltage now resp st).2.battery_voltage_history.Pairwise
         fun x y => x.timestamp ≤ y.timestamp) := by
  intro now resp st
  match resp with
  | none =>
    refine ⟨fun hle => ?_, ?_, fun hpair _ => ?_⟩
    · simpa [Hat.get_battery_voltage] using hle
    · simp [Hat.get_battery_voltage]
    · simpa [Hat.get_battery_voltage] using hpair
  | some r =>
    match hfind : Hat.findFirstPat Hat.cbcPatterns r with
    | none =>
      refine ⟨fun hle => ?_, ?_, fun hpair _ => ?_⟩
      · simpa [Hat.get_battery_voltage, hfind] using hle
      · simp [Hat.get_battery_voltage, hfind]
      · simpa [Hat.get_battery_voltage, hfind] using hpair
    | some [] =>
      refine ⟨fun hle => ?_, ?_, fun hpair _ => ?_⟩
      · simpa [Hat.get_battery_voltage, hfind] using hle
      · simp [Hat.get_battery_voltage, hfind]
      · simpa [Hat.get_battery_voltage, hfind] using hpair
    | some [g1] =>
      refine ⟨fun hle => ?_, ?_, fun hpair _ => ?_⟩
      · simpa [Hat.get_battery_voltage, hfind] using hle
      · simp [Hat.get_battery_voltage, hfind]
      · simpa [Hat.get_battery_voltage, hfind] using hpair
    | some [g1, g2] =>
      refine ⟨fun hle => ?_, ?_, fun hpair _ => ?_⟩
      · simpa [Hat.get_battery_voltage, hfind] using hle
      · simp [Hat.get_battery_voltage, hfind]
      · simpa [Hat.get_battery_voltage, hfind] using hpair
    | some (g0 :: g1 :: g2 :: gs) =>
      have hkey : (Hat.get_battery_voltage now (some r) st).2.battery_voltage_history =
          (st.battery_voltage_history ++
            [Hat.BatterySample.mk now ((digitsToNat g2 : ℚ) / 1000) (digitsToNat g1)]).drop
            (st.battery_voltage_history.length + 1 - 20) := by
        simp only [Hat.get_battery_voltage, hfind, Hat.evict20_eq_drop]
        simp
      refine ⟨fun hle => ?_, ?_, fun hpair hmono => ?_⟩
      · rw [hkey, List.length_drop]
        simp only [List.length_append, List.length_singleton]
        omega
      · simp only [Hat.get_battery_voltage, hfind, Hat.evict20_eq_drop]
        simp
      · rw [hkey]
        have h1 : (st.battery_voltage_history ++
            [Hat.BatterySample.mk now ((digitsToNat g2 : ℚ) / 1000)
              (digitsToNat g1)]).Pairwise fun x y => x.timestamp ≤ y.timestamp := by
          rw [List.pairwise_append]
          refine ⟨hpair, List.pairwise_singleton _ _, ?_⟩
          intro x hx y hy
          simp only [List.mem_singleton] at hy
          subst hy
          exact hmono x hx
        exact h1.sublist (List.drop_sublist _ _)

/-- Witness for C8 at a concrete state and response. -/
theorem C8_witness :
    ((Hat.get_battery_voltage 5 (some "+CBC: 0,87,4156")
        ⟨39/10, "measured", [⟨1, 39/10, 80⟩]⟩).2.battery_voltage_history.length ≤ 20)
  ∧ (Hat.get_battery_voltage 5 (some "+CBC: 0,87,4156")
        ⟨39/10, "measured", [⟨1, 39/10, 80⟩]⟩).2.battery_voltage_history.Pairwise
      (fun x y => x.timestamp ≤ y.timestamp) := by
  refine ⟨(C8_history_invariant 5 (some "+CBC: 0,87,4156") _).1 (by decide),
    (C8_history_invariant 5 (some "+CBC: 0,87,4156") _).2.2 (by decide) (by decide)⟩

/-- C9: whenever no pattern of `get_battery_voltage` yields at least three
numeric groups on the response (including the two-group partial-match case)
or the underlying command raised, the call returns `None` and leaves
`last_battery_voltage`, `battery_status` and `battery_voltage_history`
unchanged. -/
theorem C9_parse_failure_no_change :
    ∀ (now : Nat) (resp : Option String) (st : Hat.BattState),
      (∀ r, resp = some r →
        ∀ gs, Hat.findFirstPat Hat.cbcPatterns r = some gs → gs.length < 3) →
      Hat.get_battery_voltage now resp st = (none, st) := by
  intro now resp st hparse
  match resp with
  | none => simp [Hat.get_battery_voltage]
  | some r =>
    match hfind : Hat.findFirstPat Hat.cbcPatterns r with
    | none => simp [Hat.get_battery_voltage, hfind]
    | some [] => simp [Hat.get_battery_voltage, hfind]
    | some [g1] => simp [Hat.get_battery_voltage, hfind]
    | some [g1, g2] => simp [Hat.get_battery_voltage, hfind]
    | some (g0 :: g1 :: g2 :: gs) =>
      have := hparse r rfl (g0 :: g1 :: g2 :: gs) hfind
      simp at this
      omega

/-- Witness for C9 at the two-group partial-match response `"+CBC: 0,100"`. -/
theorem C9_witness :
    Hat.get_battery_voltage 3 (some "+CBC: 0,100") ⟨4, "unknown", []⟩ =
      (none, ⟨4, "unknown", []⟩) := by
  refine C9_parse_failure_no_change 3 (some "+CBC: 0,100") ⟨4, "unknown", []⟩ ?_
  intro r hr gs hgs
  cases hr
  rw [show Hat.findFirstPat Hat.cbcPatterns "+CBC: 0,100" = some ["0", "100"] from rfl]
    at hgs
  obtain rfl : gs = ["0", "100"] := (Option.some.inj hgs).symm
  decide

/-- C1 (the code violates the claim): for every non-empty phone number and
message, `send_sms` blocks forever instead of returning a boolean — it takes
the non-reentrant `uart_lock` and then calls `send_at("AT+CMGF=1")`, which
tries to take the same lock again with no other thread able to release it.
The early-return guard (empty phone number or message) does return `False`
without touching the lock. -/
theorem C1_send_sms_deadlocks :
    (∀ (env : Nat → String) (phone_number message : String),
      phone_number ≠ "" → message ≠ "" →
      Hat.runLockProg (Hat.send_sms_prog env phone_number message) false =
        Hat.ExecOutcome.blocked)
  ∧ Hat.runLockProg
      (Hat.send_sms_prog (fun _ => "\r\nOK\r\n") "+1234567890" "hello") false =
      Hat.ExecOutcome.blocked
  ∧ Hat.runLockProg (Hat.send_sms_prog (fun _ => "\r\nOK\r\n") "" "hello") false =
      Hat.ExecOutcome.returns false := by
  refine ⟨?_, rfl, rfl⟩
  intro env phone_number message hp hm
  unfold Hat.send_sms_prog
  rw [if_neg (by simp [hp, hm])]
  rfl

/-- Witness for C1 at a concrete failing input. -/
theorem C1_witness :
    Hat.runLockProg (Hat.send_sms_prog (fun _ => "") "+27000000000" "test") false =
      Hat.ExecOutcome.blocked :=
  C1_send_sms_deadlocks.1 (fun _ => "") "+27000000000" "test" (by decide) (by decide)

/-- C10: `set_sim_pin` changes the stored `SIM_PIN` only when the request
supplies a 4-digit numeric pin and the modem answers with "OK"; a missing or
non-4-digit-numeric pin yields HTTP 400 with no modem command issued; a
response lacking "OK" (or a raised command) leaves `SIM_PIN` unchanged. -/
theorem C10_set_pin :
    (∀ (json : Option (Option String)) (modemResp : Option String) (simPin : String),
      (∀ p, json = some (some p) → ¬(Hat.pyIsDigit p = true ∧ p.length = 4)) →
      Hat.set_sim_pin json modemResp simPin = ⟨400, [], simPin⟩)
  ∧ (∀ (p modemResp simPin : String),
      Hat.pyIsDigit p = true → p.length = 4 → strContains modemResp "OK" = true →
      Hat.set_sim_pin (some (some p)) (some modemResp) simPin =
        ⟨200, ["AT+CPIN=" ++ p], p⟩)
  ∧ (∀ (p : String) (modemResp : Option String) (simPin : String),
      (∀ r, modemResp = some r → strContains r "OK" = false) →
      (Hat.set_sim_pin (some (some p)) modemResp simPin).simPin = simPin)
  ∧ (∀ (json : Option (Option String)) (modemResp : Option String) (simPin : String),
      (Hat.set_sim_pin json modemResp simPin).simPin ≠ simPin →
      ∃ p r, json = some (some p) ∧ Hat.pyIsDigit p = true ∧ p.length = 4 ∧
        modemResp = some r ∧ strContains r "OK" = true ∧
        (Hat.set_sim_pin json modemResp simPin).simPin = p) := by
  refine ⟨?_, ?_, ?_, ?_⟩
  · intro json modemResp simPin hinv
    match json with
    | none => rfl
    | some none => rfl
    | some (some p) =>
      have hv := hinv p rfl
      simp only [Hat.set_sim_pin]
      by_cases hemp : p = ""
      · rw [if_pos hemp]
      · rw [if_neg hemp, if_pos ?_]
        rcases Bool.eq_false_or_eq_true (Hat.pyIsDigit p) with h | h
        · right
          intro hlen
          exact hv ⟨h, hlen⟩
        · exact Or.inl h
  · intro p modemResp simPin hdig hlen hok
    simp only [Hat.set_sim_pin]
    have hemp : ¬ p = "" := by
      intro h
      subst h
      exact absurd hdig (by decide)
    rw [if_neg hemp, if_neg (by push_neg; exact ⟨by simp [hdig], hlen⟩), if_pos hok]
  · intro p modemResp simPin hno
    simp only [Hat.set_sim_pin]
    by_cases hemp : p = ""
    · rw [if_pos hemp]
    · rw [if_neg hemp]
      by_cases hval : Hat.pyIsDigit p = false ∨ p.length ≠ 4
      · rw [if_pos hval]
      · rw [if_neg hval]
        match modemResp with
        | none => rfl
        | some r =>
          dsimp only
          rw [if_neg (by simp [hno r rfl])]
  · intro json modemResp simPin hchg
    match json with
    | none => exact absurd rfl hchg
    | some none => exact absurd rfl hchg
    | some (some p) =>
      revert hchg
      simp only [Hat.set_sim_pin]
      by_cases hemp : p = ""
      · rw [if_pos hemp]
        exact fun hchg => absurd rfl hchg
      · rw [if_neg hemp]
        by_cases hval : Hat.pyIsDigit p = false ∨ p.length ≠ 4
        · rw [if_pos hval]
          exact fun hchg => absurd rfl hchg
        · rw [if_neg hval]
          push_neg at hval
          match modemResp with
          | none => exact fun hchg => absurd rfl hchg
          | some r =>
            dsimp only
            by_cases hok : strContains r "OK" = true
            · rw [if_pos hok]
              intro hchg
              exact ⟨p, r, rfl, by simpa using hval.1, hval.2, rfl, hok, rfl⟩
            · rw [if_neg hok]
              exact fun hchg => absurd rfl hchg

/-- Witness for C10 at concrete requests. -/
theorem C10_witness :
    Hat.set_sim_pin (some (some "12a4")) (some "OK") "9438" = ⟨400, [], "9438"⟩
  ∧ Hat.set_sim_pin (some (some "1234")) (some "\r\nOK\r\n") "9438" =
      ⟨200, ["AT+CPIN=1234"], "1234"⟩
  ∧ (Hat.set_sim_pin (some (some "1234")) (some "\r\nERROR\r\n") "9438").simPin =
      "9438" := by
  refine ⟨C10_set_pin.1 (some (some "12a4")) (some "OK") "9438" ?_,
    C10_set_pin.2.1 "1234" "\r\nOK\r\n" "9438" (by decide) (by decide) (by decide),
    C10_set_pin.2.2.1 "1234" (some "\r\nERROR\r\n") "9438" ?_⟩
  · intro p hp
    cases hp
    decide
  · intro r hr
    cases hr
    decide

/-- Helper for the C5 bound: the polling loop finishes no later than 5 ticks
(the trailing grace) past its deadline, whenever it starts before the
deadline. -/
theorem uartReadAux_finish_le (chunks : Nat → String) (deadline : Nat) :
    ∀ (fuel t k : Nat) (response : String) (last : Nat), t ≤ deadline →
      (Recv.uartReadAux chunks deadline fuel t k response last).2 ≤ deadline + 5 := by
  intro fuel
  induction fuel with
  | zero =>
    intro t k response last ht
    simp only [Recv.uartReadAux]
    omega
  | succ n ih =>
    intro t k response last ht
    simp only [Recv.uartReadAux]
    by_cases htd : t < deadline
    · rw [if_pos htd]
      by_cases hdata : chunks k ≠ ""
      · rw [if_pos hdata]
        by_cases hterm : Recv.hasTerminator (response ++ chunks k) = true
        · rw [if_pos hterm]
          simp only
          omega
        · rw [if_neg hterm]
          exact ih (t + 1) (k + 1) _ t (by omega)
      · rw [if_neg hdata]
        by_cases hsil : response ≠ "" ∧ last > 0 ∧ t - last > 5
        · rw [if_pos hsil]
          simp only
          omega
        · rw [if_neg hsil]
          exact ih (t + 1) (k + 1) _ last (by omega)
    · rw [if_neg htd]
      simp only
      omega

/-- Byte streams used in the C5 analysis: one delivering an `ERROR`-terminated
response on the first read, one never delivering data. -/
def chunksError : Nat → String := fun k => if k = 0 then "\r\nERROR\r\n" else ""

/-- A byte stream that never delivers data. -/
def chunksSilent : Nat → String := fun _ => ""

set_option maxRecDepth 8000 in
/-- The C5 claim is false on the code in both halves, at concrete inputs with
the default `wait_time = 0.1 s` (10 ticks) and default expected response
`"OK"`: a captured `ERROR` response contains a terminal token yet `success`
is `false` (success tracks `expected_response in response`, not the
terminators); and with no data arriving, `send_command` returns only after
`wait_time + timeout` (210 ticks), exceeding `timeout + trailing-grace`
(205 ticks). -/
theorem C5_counterexample :
    ((Recv.send_command "AT" 10 "OK" none chunksError 1).1 = false
      ∧ Recv.hasTerminator
          (Recv.send_at chunksError 10 (Recv.selectTimeout none "AT") 1).1 = true)
  ∧ ((Recv.send_at chunksSilent 10 (Recv.selectTimeout none "AT") 1).2 - 1 = 210
      ∧ 100 * Recv.selectTimeout none "AT" + 5 = 205) := by
  exact ⟨⟨rfl, rfl⟩, rfl, rfl⟩

/-- C5 (amended): `send_command` returns within
`wait_time + timeout + trailing-grace` of its start, and its success flag is
true iff the expected-response text (default `"OK"`) occurs in the captured
response — unconditionally true when the expected text is empty. -/
theorem C5_amended :
    ∀ (command : String) (waitTicks : Nat) (expected : String)
      (timeout : Option Nat) (chunks : Nat → String) (start : Nat),
      ((Recv.send_command command waitTicks expected timeout chunks start).2.2 ≤
          start + waitTicks + 100 * Recv.selectTimeout timeout command + 5)
    ∧ ((Recv.send_command command waitTicks expected timeout chunks start).1 = true ↔
        (expected ≠ "" →
          strContains
            (Recv.send_at chunks waitTicks (Recv.selectTimeout timeout command) start).1
            expected = true)) := by
  intro command waitTicks expected timeout chunks start
  constructor
  · show (Recv.send_at chunks waitTicks (Recv.selectTimeout timeout command) start).2 ≤ _
    unfold Recv.send_at Recv.uart_read
    have h := uartReadAux_finish_le chunks
      (start + waitTicks + 100 * Recv.selectTimeout timeout command)
      (100 * Recv.selectTimeout timeout command) (start + waitTicks) 0 "" 0 (by omega)
    omega
  · by_cases hexp : expected = ""
    · simp [Recv.send_command, hexp]
    · show (if expected ≠ "" then _ else true) = true ↔ _
      rw [if_pos hexp]
      exact ⟨fun h _ => h, fun h => h hexp⟩

/-- Witness for C5 at a concrete command and byte stream. -/
theorem C5_witness :
    (Recv.send_command "AT" 10 "OK" none chunksSilent 1).2.2 ≤
      1 + 10 + 100 * Recv.selectTimeout none "AT" + 5 :=
  (C5_amended "AT" 10 "OK" none chunksSilent 1).1

/-- C7: with no explicit timeout, `send_command` selects the timeout by
command class, in the source's dispatch order: `AT+COPS=` prefix 15 s,
`AT+CFUN=` prefix 8 s, `AT+CPIN=` prefix 5 s, then any command containing
`"?"` 3 s, and 2 s otherwise. -/
theorem C7_timeout_policy :
    ∀ command : String,
      (pyStartsWith command "AT+COPS=" = true → Recv.selectTimeout none command = 15)
    ∧ (pyStartsWith command "AT+COPS=" = false →
       pyStartsWith command "AT+CFUN=" = true → Recv.selectTimeout none command = 8)
    ∧ (pyStartsWith command "AT+COPS=" = false →
       pyStartsWith command "AT+CFUN=" = false →
       pyStartsWith command "AT+CPIN=" = true → Recv.selectTimeout none command = 5)
    ∧ (pyStartsWith command "AT+COPS=" = false →
       pyStartsWith command "AT+CFUN=" = false →
       pyStartsWith command "AT+CPIN=" = false →
       strContains command "?" = true → Recv.selectTimeout none command = 3)
    ∧ (pyStartsWith command "AT+COPS=" = false →
       pyStartsWith command "AT+CFUN=" = false →
       pyStartsWith command "AT+CPIN=" = false →
       strContains command "?" = false → Recv.selectTimeout none command = 2) := by
  intro command
  refine ⟨fun h1 => ?_, fun h1 h2 => ?_, fun h1 h2 h3 => ?_, fun h1 h2 h3 h4 => ?_,
    fun h1 h2 h3 h4 => ?_⟩ <;>
    simp [Recv.selectTimeout, Recv.commandTimeout, *]

/-- Witness for C7 at one command of each class. -/
theorem C7_witness :
    Recv.selectTimeout none "AT+COPS=0" = 15
  ∧ Recv.selectTimeout none "AT+CFUN=1,1" = 8
  ∧ Recv.selectTimeout none "AT+CPIN=9438" = 5
  ∧ Recv.selectTimeout none "AT+CREG?" = 3
  ∧ Recv.selectTimeout none "AT+CMGF=1" = 2 := by
  refine ⟨(C7_timeout_policy "AT+COPS=0").1 (by decide),
    (C7_timeout_policy "AT+CFUN=1,1").2.1 (by decide) (by decide),
    (C7_timeout_policy "AT+CPIN=9438").2.2.1 (by decide) (by decide) (by decide),
    (C7_timeout_policy "AT+CREG?").2.2.2.1 (by decide) (by decide) (by decide)
      (by decide),
    (C7_timeout_policy "AT+CMGF=1").2.2.2.2 (by decide) (by decide) (by decide)
      (by decide)⟩

/-- Poll responses for the C3 analysis: denied on the first poll, registered
(home) afterwards. -/
def cregDeniedThenHome : Nat → String :=
  fun i => if i = 0 then "+CREG: 1,3\r\n" else "+CREG: 1,1\r\n"

/-- Poll responses that always report registration denied. -/
def cregAllDenied : Nat → String := fun _ => "+CREG: 0,3"

/-- The C3 claim is false on the code: the first poll parses as denied
(status `"3"`), yet the procedure does not stop there — status 3 falls into
the catch-all `else`, the loop polls again, and when the second poll reports
home registration the procedure returns success after 2 polls instead of the
claimed immediate failure after 1. -/
theorem C3_counterexample :
    Recv.cregParse (cregDeniedThenHome 0) = some ("1", "3")
  ∧ Recv.check_network_registration cregDeniedThenHome ≠ (false, 1)
  ∧ Recv.check_network_registration cregDeniedThenHome = (true, 2) := by
  refine ⟨rfl, by decide, rfl⟩

/-- Helper for C3: a poll that parses with status `"3"` (denied) just
continues the loop with the next attempt. -/
theorem checkNetRegAux_denied_step (responses : Nat → String) (fuel attempt : Nat)
    (n : String) (h : Recv.cregParse (responses attempt) = some (n, "3")) :
    Recv.checkNetRegAux responses (fuel + 1) attempt =
      Recv.checkNetRegAux responses fuel (attempt + 1) := by
  simp only [Recv.checkNetRegAux, h]
  rw [if_neg (by decide), if_neg (by decide), if_neg (by decide), if_neg (by decide)]

/-- C3 (amended): observing denied (CREG status 3) is not terminal —
`check_network_registration` treats it like any unrecognized status, logging
and continuing to poll; the procedure ends only with success on home/roaming
or with failure after exhausting all 30 attempts (as when every poll reports
denied). -/
theorem C3_amended :
    (∀ (responses : Nat → String) (fuel attempt : Nat) (n : String),
      Recv.cregParse (responses attempt) = some (n, "3") →
      Recv.checkNetRegAux responses (fuel + 1) attempt =
        Recv.checkNetRegAux responses fuel (attempt + 1))
  ∧ (∀ responses : Nat → String,
      (∀ i, i < 30 → ∃ n, Recv.cregParse (responses i) = some (n, "3")) →
      Recv.check_network_registration responses = (false, 30)) := by
  constructor
  · exact fun r f a n h => checkNetRegAux_denied_step r f a n h
  · intro responses hall
    have key : ∀ (fuel attempt : Nat),
        (∀ i, attempt ≤ i → i < attempt + fuel →
          ∃ n, Recv.cregParse (responses i) = some (n, "3")) →
        Recv.checkNetRegAux responses fuel attempt = (false, attempt + fuel) := by
      intro fuel
      induction fuel with
      | zero =>
        intro attempt _
        simp [Recv.checkNetRegAux]
      | succ m ih =>
        intro attempt h
        obtain ⟨n, hn⟩ := h attempt (Nat.le_refl _) (by omega)
        rw [checkNetRegAux_denied_step responses m attempt n hn,
          ih (attempt + 1) (fun i h1 h2 => h i (by omega) (by omega))]
        congr 1
        omega
    have h30 := key 30 0 (fun i _ h2 => hall i (by omega))
    simpa [Recv.check_network_registration] using h30

/-- Witness for C3: with every poll denied, one denied step continues the
loop, and the full procedure reports failure after all 30 polls. -/
theorem C3_witness :
    Recv.checkNetRegAux cregAllDenied 30 0 = Recv.checkNetRegAux cregAllDenied 29 1
  ∧ Recv.check_network_registration cregAllDenied = (false, 30) := by
  refine ⟨C3_amended.1 cregAllDenied 29 0 "0" rfl, C3_amended.2 cregAllDenied ?_⟩
  intro i _
  exact ⟨"0", rfl⟩

/-- The C2 claim is false on the code: with auto-delete enabled, processing
the notification `+CMTI: "SM",7` whose `AT+CMGR=7` read yields only `ERROR`
(so no record is produced) still issues the delete `AT+CMGD=7` — the
listener "always tries to delete the message to prevent backlog". -/
theorem C2_counterexample :
    ¬ (("AT+CMGD=7" ∈
          (Recv.processNotification "+CMTI: \"SM\",7" "\r\nERROR\r\n" true).1) →
        (Recv.processNotification "+CMTI: \"SM\",7" "\r\nERROR\r\n" true).2 ≠ none) := by
  intro h
  exact h (by decide) rfl

/-- C2 (amended): after a parsed `+CMTI` notification with auto-delete
enabled, the listener issues the read `AT+CMGR=<idx>` first and then always
the delete `AT+CMGD=<idx>` — read precedes delete, but the delete does not
wait for a record to be produced; the delete-only-after-record discipline
holds in `read_single_sms`, which issues `AT+CMGD=<index>` only when a
record was produced. -/
theorem C2_amended :
    (∀ (message cmgrResp idx : String),
      strContains message "+CMTI:" = true →
      Recv.cmtiIndex message = some idx →
      (Recv.processNotification message cmgrResp true).1 =
        ["AT+CMGR=" ++ idx, "AT+CMGD=" ++ idx])
  ∧ (∀ (index : Nat) (success : Bool) (response : String)
      (fallbackMessages : List Recv.SmsRecord) (auto_delete : Bool),
      ("AT+CMGD=" ++ toString index) ∈
        (Recv.read_single_sms index success response fallbackMessages auto_delete).2 →
      ∃ m, (Recv.read_single_sms index success response fallbackMessages
        auto_delete).1 = some m) := by
  constructor
  · intro message cmgrResp idx hmsg hidx
    unfold Recv.processNotification
    rw [if_pos hmsg, hidx]
    simp
  · intro index success response fallbackMessages auto_delete hd
    unfold Recv.read_single_sms at hd ⊢
    by_cases hs : success = false
    · rw [if_pos hs] at hd ⊢
      cases hfind : fallbackMessages.find? (fun m => m.index == index) with
      | some m =>
        rw [hfind] at hd
        exact ⟨m, rfl⟩
      | none =>
        rw [hfind] at hd
        simp at hd
    · rw [if_neg hs] at hd ⊢
      cases hparse : (if strContains response "+CMGR:" then
          Recv.parseCmgrLines index (splitOnChar '\n' response) else none) with
      | some m =>
        rw [hparse] at hd
        exact ⟨m, rfl⟩
      | none =>
        rw [hparse] at hd
        simp at hd

/-- Witness for C2: a parsed notification issues read-then-delete in order,
and a successful single read produces a record (whose delete is allowed). -/
theorem C2_witness :
    (Recv.processNotification "+CMTI: \"SM\",12" "ERR" true).1 =
      ["AT+CMGR=12", "AT+CMGD=12"]
  ∧ ∃ m, (Recv.read_single_sms 4 true
      "+CMGR: \"REC UNREAD\",\"+123\",\"\",\"24/01/01,12:00:00\"\nHello\n\nOK" []
      true).1 = some m := by
  refine ⟨C2_amended.1 "+CMTI: \"SM\",12" "ERR" "12" (by decide) rfl,
    C2_amended.2 4 true _ [] true ?_⟩
  decide
